import Mathlib

/-!
Verification of the Application Lifecycle & Risk-Assessment Engine of the
ai-credit-workspace repository.

This file gives a shallow embedding, over `ℚ`, `ℤ`, `String` and `List`, of:
  * the role → default-grant table (`getDefaultPermissions`, src/server/routes/auth.js),
  * the permission predicate (`hasPermission`, modelled from the spec since the
    User model file is not part of the sources),
  * the feature extractor (`preprocessFeatures`, `getLoanPurposeScore`,
    src/server/services/aiCreditScoring.js),
  * the demo scoring pipeline (`calculateCreditScoreDemo`, `predictCreditScoreDemo`,
    `calculateRiskLevel`, `analyzeFactors`, `generateRecommendations`),
  * the fraud heuristic (`evaluateFraudRisk`),
  * the five route-level operations on an application
    (`updateApplication`, `submitApplication`, `assignApplication`,
     `addReviewNote`, `analyzeApplication`, from src/server/routes/auth.js and
     the AI route file).

JavaScript conventions are embedded explicitly: `x || d` on a possibly-missing
numeric field is `jsOrQ` (a present `0` is falsy and takes the default),
comparisons against `undefined` are false (`jsGtQ`, `jsLtQ`), and
`Math.round x` is `⌊x + 1/2⌋`.
-/

namespace CreditWorkspace

/-- The seven application statuses (TypeScript union in the client types and
the route-level checks). -/
inductive Status where
  | draft
  | submitted
  | under_review
  | pending_documents
  | approved
  | denied
  | withdrawn
  deriving DecidableEq, Repr

/-- A permission grant `{resource, actions[]}` as in the User model's
`permissions` array (TypeScript `Permission` interface). -/
structure Grant where
  resource : String
  actions : List String
  deriving DecidableEq, Repr

/-- An actor: role plus explicit grant list (the parts of the User record the
core reads). -/
structure Actor where
  role : String
  permissions : List Grant
  deriving DecidableEq, Repr

/-- Modelled from the spec: `User.hasPermission(resource, action)` lives in
src/server/models/User.js, which is absent from the sources; §4.1 of the spec
gives the contract: a grant matches if `resource` is equal and `action` is
contained in the grant's action set. -/
def hasPermission (actor : Actor) (resource action : String) : Bool :=
  actor.permissions.any (fun g => g.resource == resource && g.actions.contains action)

/-- `getDefaultPermissions` from src/server/routes/auth.js: the role-keyed
object literal `permissionSets`, with `permissionSets[role] || permissionSets.viewer`
as the lookup. -/
def getDefaultPermissions (role : String) : List Grant :=
  if role = "admin" then
    [⟨"applications", ["create", "read", "update", "delete", "approve"]⟩,
     ⟨"users", ["create", "read", "update", "delete"]⟩,
     ⟨"reports", ["create", "read", "update", "delete"]⟩,
     ⟨"settings", ["read", "update"]⟩]
  else if role = "underwriter" then
    [⟨"applications", ["read", "update", "approve"]⟩,
     ⟨"reports", ["read"]⟩]
  else if role = "analyst" then
    [⟨"applications", ["create", "read", "update"]⟩,
     ⟨"reports", ["read"]⟩]
  else if role = "viewer" then
    [⟨"applications", ["read"]⟩,
     ⟨"reports", ["read"]⟩]
  else
    [⟨"applications", ["read"]⟩,
     ⟨"reports", ["read"]⟩]

/-- JS `x || d` on an optional string field (absent and `""` are falsy). -/
def jsOrStr (x : Option String) (d : String) : String :=
  match x with
  | none => d
  | some s => if s = "" then d else s

/-- The role stored by `POST /register`: `role: role || 'analyst'`. -/
def registeredRole (role : Option String) : String :=
  jsOrStr role "analyst"

/-- The grant list stored by `POST /register`:
`getDefaultPermissions(role || 'analyst')`. -/
def registeredPermissions (role : Option String) : List Grant :=
  getDefaultPermissions (jsOrStr role "analyst")

/-! ### Feature extraction (src/server/services/aiCreditScoring.js) -/

/-- JS `x || d` on an optional numeric field: `undefined` and `0` are falsy
and take the default. -/
def jsOrQ (x : Option ℚ) (d : ℚ) : ℚ :=
  match x with
  | none => d
  | some v => if v = 0 then d else v

/-- JS `x > c` where `x` may be `undefined` (comparison with `undefined` is
false). -/
def jsGtQ (x : Option ℚ) (c : ℚ) : Bool :=
  match x with
  | none => false
  | some v => decide (c < v)

/-- JS `x < c` where `x` may be `undefined`. -/
def jsLtQ (x : Option ℚ) (c : ℚ) : Bool :=
  match x with
  | none => false
  | some v => decide (v < c)

/-- JS `Math.round`: round half toward `+∞`. -/
def jsRound (x : ℚ) : ℤ := ⌊x + 1 / 2⌋

/-- The raw applicant/loan data the scoring service reads. Every numeric field
may be absent (`undefined` in the source). -/
structure ApplicantData where
  creditScore : Option ℚ := none
  annualIncome : Option ℚ := none
  debtToIncomeRatio : Option ℚ := none
  employmentLength : Option ℚ := none
  loanAmount : Option ℚ := none
  loanTerm : Option ℚ := none
  paymentHistoryScore : Option ℚ := none
  creditUtilization : Option ℚ := none
  numberOfAccounts : Option ℚ := none
  recentInquiries : Option ℚ := none
  collateralValue : Option ℚ := none
  loanPurpose : Option String := none
  timeAtAddress : Option ℚ := none
  age : Option ℚ := none
  deriving DecidableEq, Repr

/-- `getLoanPurposeScore`: the `purposeScores` object literal indexed by the
purpose string, with `|| 5` as fallback (all table values are truthy, so the
fallback fires exactly on keys outside the table, including an absent
purpose). -/
def getLoanPurposeScore (purpose : Option String) : ℚ :=
  match purpose with
  | none => 5
  | some p =>
    if p = "home_purchase" then 9
    else if p = "home_improvement" then 8
    else if p = "debt_consolidation" then 6
    else if p = "auto_loan" then 7
    else if p = "business" then 5
    else if p = "education" then 8
    else if p = "medical" then 7
    else if p = "vacation" then 3
    else if p = "other" then 5
    else 5

/-- `preprocessFeatures`: the 12 pushes, in source order, each `(field || default)`
divided by its normalizing constant (debt-to-income and credit utilization are
pushed as given). -/
def preprocessFeatures (d : ApplicantData) : List ℚ :=
  [jsOrQ d.creditScore 600 / 800,
   jsOrQ d.annualIncome 50000 / 200000,
   jsOrQ d.debtToIncomeRatio (3 / 10),
   jsOrQ d.employmentLength 2 / 20,
   jsOrQ d.loanAmount 50000 / 500000,
   jsOrQ d.loanTerm 15 / 30,
   jsOrQ d.paymentHistoryScore 80 / 100,
   jsOrQ d.creditUtilization (3 / 10),
   jsOrQ d.numberOfAccounts 5 / 20,
   jsOrQ d.recentInquiries 2 / 10,
   jsOrQ d.collateralValue 0 / 1000000,
   getLoanPurposeScore d.loanPurpose / 10]

/-! ### Demo scoring pipeline (second `AICreditscoringEngine` definition) -/

/-- The fixed weight vector of `calculateCreditScoreDemo`. -/
def demoWeights : List ℚ :=
  [30 / 100, 20 / 100, -(20 / 100), 10 / 100, -(5 / 100), 5 / 100,
   15 / 100, -(15 / 100), 5 / 100, -(10 / 100), 10 / 100, 15 / 100]

/-- The accumulation loop `for i ... score += features[i] * weights[i]`. -/
def weightedSum (features : List ℚ) : ℚ :=
  (features.zip demoWeights).foldl (fun acc fw => acc + fw.1 * fw.2) 0

/-- `calculateCreditScoreDemo`: weighted sum, logistic squash
`1/(1+exp(-2s))` (the real-valued squash is the `squash` strategy parameter,
per the spec's pluggable-strategy requirement), additive noise
`(Math.random()-0.5)*0.1` (`rand` stands for the `Math.random()` draw), then
`Math.max(0, Math.min(1, score))`. -/
def calculateCreditScoreDemo (squash : ℚ → ℚ) (rand : ℚ) (features : List ℚ) : ℚ :=
  let s := weightedSum features
  let s := squash (s * 2)
  let s := s + (rand - 1 / 2) * (1 / 10)
  max 0 (min 1 s)

/-- `calculateRiskLevel`: the fixed banding thresholds on the credit score. -/
def calculateRiskLevel (creditScore : ℤ) : String :=
  if creditScore ≥ 750 then "LOW"
  else if creditScore ≥ 650 then "MEDIUM"
  else if creditScore ≥ 550 then "HIGH"
  else "VERY_HIGH"

/-- `analyzeFactors`: one factor record per crossed threshold (the record is
abbreviated to its factor name). -/
def analyzeFactors (features : List ℚ) : List String :=
  (if features.getD 0 0 < 6 / 10 then ["Credit Score"] else []) ++
  (if features.getD 1 0 > 8 / 10 then ["Income"] else []) ++
  (if features.getD 2 0 > 4 / 10 then ["Debt-to-Income"] else []) ++
  (if features.getD 6 0 > 9 / 10 then ["Payment History"] else []) ++
  (if features.getD 7 0 > 7 / 10 then ["Credit Utilization"] else [])

/-- `generateRecommendations`: rule-based actions keyed on the credit score and
the raw debt-to-income ratio (abbreviated to the `action` tag). -/
def generateRecommendations (d : ApplicantData) (creditScore : ℤ) : List String :=
  (if creditScore < 650 then ["REQUEST_COSIGNER"] else []) ++
  (if jsGtQ d.debtToIncomeRatio (4 / 10) then ["REDUCE_LOAN_AMOUNT"] else []) ++
  (if creditScore ≥ 750 then ["APPROVE_STANDARD"] else [])

/-- The result record of `predictCreditScore`. -/
structure ScoreResult where
  creditScore : ℤ
  riskLevel : String
  probability : ℚ
  recommendations : List String
  factors : List String
  modelVersion : String
  deriving DecidableEq, Repr

/-- The demo `predictCreditScore`: throws when `isModelLoaded` is false,
otherwise extracts features, runs the demo score, scales with
`Math.round(score * 550 + 300)` and assembles the result. -/
def predictCreditScoreDemo (isModelLoaded : Bool) (squash : ℚ → ℚ) (rand : ℚ)
    (d : ApplicantData) : Except String ScoreResult :=
  if !isModelLoaded then
    .error "AI model not loaded. Please initialize first."
  else
    let features := preprocessFeatures d
    let score := calculateCreditScoreDemo squash rand features
    let creditScore := jsRound (score * 550 + 300)
    .ok { creditScore := creditScore
          riskLevel := calculateRiskLevel creditScore
          probability := score
          recommendations := generateRecommendations d creditScore
          factors := analyzeFactors features
          modelVersion := "1.0.0-demo" }

/-- The scaling line of the TensorFlow variant of `predictCreditScore`:
`Math.round(score[0] * 850 + 300)`, applied to the model's output
probability. -/
def scaleCreditScoreTF (p : ℚ) : ℤ := jsRound (p * 850 + 300)

/-! ### Fraud heuristic (`evaluateFraudRisk`) -/

/-- The result record of `evaluateFraudRisk`. -/
structure FraudResult where
  fraudScore : ℤ
  riskLevel : String
  riskFactors : List String
  recommendation : String
  deriving DecidableEq, Repr

/-- `evaluateFraudRisk`: the four sequential rule blocks accumulating
`fraudScore` and `riskFactors`, then the banding and recommendation
ternaries. -/
def evaluateFraudRisk (d : ApplicantData) : FraudResult := Id.run do
  let mut riskFactors : List String := []
  let mut fraudScore : ℤ := 0
  if jsGtQ d.annualIncome 200000 && jsLtQ d.employmentLength 1 then
    riskFactors := riskFactors ++ ["High income with short employment history"]
    fraudScore := fraudScore + 30
  if jsLtQ d.timeAtAddress 6 then
    riskFactors := riskFactors ++ ["Recently moved to current address"]
    fraudScore := fraudScore + 10
  if jsLtQ d.age 21 && jsGtQ d.creditScore 750 then
    riskFactors := riskFactors ++ ["High credit score at young age"]
    fraudScore := fraudScore + 20
  if jsGtQ d.recentInquiries 5 then
    riskFactors := riskFactors ++ ["Multiple recent credit inquiries"]
    fraudScore := fraudScore + 15
  return { fraudScore := fraudScore
           riskLevel :=
             if fraudScore > 50 then "HIGH"
             else if fraudScore > 25 then "MEDIUM" else "LOW"
           riskFactors := riskFactors
           recommendation :=
             if fraudScore > 50 then "MANUAL_REVIEW" else "AUTOMATED_PROCESSING" }

/-! ### Route-level operations on an application
(src/server/routes/auth.js, credit-application section, and the AI analyze
route). Each handler is a pure function from the loaded application to either
an error response — produced before any mutation of the entity — or the
mutated, saved application. -/

/-- One audit-trail record (`details` and `requestContext` are elided: no
claim inspects them). -/
structure AuditEntry where
  action : String
  performedBy : String
  timestamp : Nat
  deriving DecidableEq, Repr

/-- The application entity, restricted to the fields the five operations
touch. `data` stands for the opaque applicant/loan/financial payload that
`Object.assign` merges on update. A fresh application starts in `draft` with
every optional field unset. -/
structure Application where
  status : Status := .draft
  data : List (String × String) := []
  submittedAt : Option Nat := none
  assignedTo : Option String := none
  assignedAt : Option Nat := none
  reviewNotes : List String := []
  aiAssessment : Option ℤ := none
  auditTrail : List AuditEntry := []
  deriving DecidableEq, Repr

/-- Modelled from the spec: `CreditApplication.addAuditEntry` lives in
src/server/models/CreditApplication.js, absent from the sources; §4.6 gives
the contract: pure append of one entry, never an update or delete. -/
def addAuditEntry (app : Application) (action performedBy : String)
    (now : Nat) : Application :=
  { app with auditTrail := app.auditTrail ++ [⟨action, performedBy, now⟩] }

/-- The error responses the routes and middleware produce before touching the
entity. -/
inductive RouteError where
  /-- 401/403 from the `protect`/`authorize`/`checkPermission` middleware. -/
  | authorization
  /-- 400: action not valid from the current status (finalized update,
  non-draft submit). -/
  | illegalTransition
  /-- 400: required input missing (empty review note). -/
  | validation
  /-- 503: scoring engine not initialized. -/
  | scoringUnavailable
  deriving DecidableEq, Repr

/-- The body of `PUT /applications/:id`: it may carry a `status` field and
arbitrary further fields, all merged by `Object.assign(application, req.body)`. -/
structure UpdateBody where
  status : Option Status := none
  fields : List (String × String) := []
  deriving DecidableEq, Repr

/-- `PUT /applications/:id`: `checkPermission('applications','update')`
middleware, then rejection when status is `approved` or `denied`
("Cannot update application that has been finalized"), then
`Object.assign(application, req.body)` followed by one
`application_updated` audit entry and save. -/
def updateApplication (actor : Actor) (actorId : String) (app : Application)
    (body : UpdateBody) (now : Nat) : Except RouteError Application :=
  if !hasPermission actor "applications" "update" then
    .error .authorization
  else if app.status == .approved || app.status == .denied then
    .error .illegalTransition
  else
    .ok (addAuditEntry
      { app with
        status := body.status.getD app.status
        data := app.data ++ body.fields }
      "application_updated" actorId now)

/-- `POST /applications/:id/submit`: `checkPermission('applications','update')`
middleware, rejection unless status is `draft`, then status `submitted`,
`submittedAt` set, one `application_submitted` audit entry, save. -/
def submitApplication (actor : Actor) (actorId : String) (app : Application)
    (now : Nat) : Except RouteError Application :=
  if !hasPermission actor "applications" "update" then
    .error .authorization
  else if app.status != .draft then
    .error .illegalTransition
  else
    .ok (addAuditEntry
      { app with status := .submitted, submittedAt := some now }
      "application_submitted" actorId now)

/-- `POST /applications/:id/assign`: `authorize('admin','underwriter')`
middleware (role-gated), then — with no check of the current status —
assignment metadata is set, status becomes `under_review`, one
`application_assigned` audit entry, save. -/
def assignApplication (actor : Actor) (actorId : String) (app : Application)
    (assigneeId : String) (now : Nat) : Except RouteError Application :=
  if !(actor.role == "admin" || actor.role == "underwriter") then
    .error .authorization
  else
    .ok (addAuditEntry
      { app with
        assignedTo := some assigneeId
        assignedAt := some now
        status := .under_review }
      "application_assigned" actorId now)

/-- `POST /applications/:id/notes`: `checkPermission('applications','update')`
middleware, rejection when the note is empty, then the note is appended with
one `review_note_added` audit entry; the status is not touched. -/
def addReviewNote (actor : Actor) (actorId : String) (app : Application)
    (note : String) (now : Nat) : Except RouteError Application :=
  if !hasPermission actor "applications" "update" then
    .error .authorization
  else if note == "" then
    .error .validation
  else
    .ok (addAuditEntry
      { app with reviewNotes := app.reviewNotes ++ [note] }
      "review_note_added" actorId now)

/-- `POST /analyze` (AI route): `checkPermission('applications','read')`
middleware, 503 when the engine is not loaded, then the assessment is stored
with one `ai_analysis_completed` audit entry; the status is not touched. -/
def analyzeApplication (actor : Actor) (actorId : String) (app : Application)
    (isModelLoaded : Bool) (assessment : ℤ) (now : Nat) :
    Except RouteError Application :=
  if !hasPermission actor "applications" "read" then
    .error .authorization
  else if !isModelLoaded then
    .error .scoringUnavailable
  else
    .ok (addAuditEntry
      { app with aiAssessment := some assessment }
      "ai_analysis_completed" actorId now)

/-- The stored entity after a route returns: an error response is produced
before any mutation or `save()`, so the stored entity is the original. -/
def persistedAfter (orig : Application) (r : Except RouteError Application) :
    Application :=
  match r with
  | .ok a => a
  | .error _ => orig

/-! ### Helper lemmas -/

/-- Every value carried by an optional input field lies in `[0, hi]`. -/
def optInRange (x : Option ℚ) (hi : ℚ) : Prop :=
  ∀ v, x = some v → 0 ≤ v ∧ v ≤ hi

theorem jsOrQ_mem_range (x : Option ℚ) (hi d : ℚ) (hx : optInRange x hi)
    (hd0 : 0 ≤ d) (hdhi : d ≤ hi) : 0 ≤ jsOrQ x d ∧ jsOrQ x d ≤ hi := by
  cases x with
  | none => exact ⟨hd0, hdhi⟩
  | some v =>
    by_cases hv : v = 0
    · simpa [jsOrQ, hv] using ⟨hd0, hdhi⟩
    · simpa [jsOrQ, hv] using hx v rfl

theorem div_mem_unit {v hi : ℚ} (h0 : 0 ≤ v) (h1 : v ≤ hi) (hpos : (0 : ℚ) < hi) :
    0 ≤ v / hi ∧ v / hi ≤ 1 :=
  ⟨div_nonneg h0 hpos.le, (div_le_one hpos).mpr h1⟩

theorem getLoanPurposeScore_mem_range (p : Option String) :
    0 ≤ getLoanPurposeScore p ∧ getLoanPurposeScore p ≤ 10 := by
  cases p with
  | none => exact ⟨by norm_num [getLoanPurposeScore], by norm_num [getLoanPurposeScore]⟩
  | some s =>
    simp only [getLoanPurposeScore]
    split_ifs <;> norm_num

/-! ### Claim theorems -/

/-- C1: the claim says terminal states (`approved`, `denied`, `withdrawn`)
have no outbound transitions under any core operation. The assign route has no
check of the current status, so an admin assigning an application whose status
is `approved` moves it to `under_review` — an outbound transition from a
terminal state, absent from the §4.4 table. This theorem evaluates the
embedded assign handler at that failing input. -/
theorem assign_moves_terminal_approved_to_under_review :
    assignApplication ⟨"admin", getDefaultPermissions "admin"⟩ "admin1"
        { status := .approved } "uw1" 5 =
      .ok { status := .under_review, assignedTo := some "uw1",
            assignedAt := some 5,
            auditTrail := [⟨"application_assigned", "admin1", 5⟩] } := by
  rfl

/-- C3: the claim says `creditScore` always lies in `[300, 850]`. The
TensorFlow variant of `predictCreditScore` scales the model probability with
`Math.round(score[0] * 850 + 300)` — despite its own comment
"Scale to 300-850" — which at probability `0.9` yields `1065 > 850`. -/
theorem tf_scaling_escapes_credit_range :
    scaleCreditScoreTF (9 / 10) = 1065 ∧ ¬ scaleCreditScoreTF (9 / 10) ≤ 850 := by
  norm_num [scaleCreditScoreTF, jsRound]

/-- Supporting fact for the scoring range: unlike the TensorFlow variant's
scaling, the demo variant's `Math.round(score * 550 + 300)` keeps the credit
score inside `[300, 850]` for every input, squash strategy and noise draw —
the clamp `Math.max(0, Math.min(1, score))` bounds the probability — and the
reported risk level is the banding function of the reported credit score. -/
theorem demo_credit_score_in_range (squash : ℚ → ℚ) (rand : ℚ)
    (d : ApplicantData) (r : ScoreResult)
    (hr : predictCreditScoreDemo true squash rand d = .ok r) :
    300 ≤ r.creditScore ∧ r.creditScore ≤ 850
    ∧ r.riskLevel = calculateRiskLevel r.creditScore := by
  unfold predictCreditScoreDemo at hr
  simp only [Bool.not_true, Bool.false_eq_true, if_false, Except.ok.injEq] at hr
  set s := calculateCreditScoreDemo squash rand (preprocessFeatures d) with hs
  have hs0 : 0 ≤ s := by
    rw [hs]
    unfold calculateCreditScoreDemo
    exact le_max_left 0 _
  have hs1 : s ≤ 1 := by
    rw [hs]
    unfold calculateCreditScoreDemo
    exact max_le (by norm_num) (min_le_left 1 _)
  have hcs : r.creditScore = jsRound (s * 550 + 300) := by rw [← hr]
  refine ⟨?_, ?_, ?_⟩
  · rw [hcs]
    unfold jsRound
    refine Int.le_floor.mpr ?_
    push_cast
    nlinarith
  · rw [hcs]
    unfold jsRound
    have h1 : (s * 550 + 300 + 1 / 2 : ℚ) < 851 := by nlinarith
    have h2 : (⌊s * 550 + 300 + 1 / 2⌋ : ℤ) < 851 :=
      Int.floor_lt.mpr (by push_cast; linarith)
    omega
  · rw [← hr]

/-- C7 counterexample: the claim says the admin default grant set gives full
CRUD plus approve on each of applications, users, reports and settings; in the
code the admin set carries no `approve` on `users` and no `create` on
`settings`. -/
theorem admin_defaults_lack_users_approve :
    hasPermission ⟨"admin", getDefaultPermissions "admin"⟩ "users" "approve" = false
    ∧ hasPermission ⟨"admin", getDefaultPermissions "admin"⟩ "settings" "create" = false := by
  constructor <;> rfl

/-- C7 amended: the role → default-grant table as the code defines it: admin
holds full CRUD + approve on applications, full CRUD (without approve) on
users and reports, and read/update only on settings; underwriter holds
read/update/approve on applications and read on reports; analyst holds
create/read/update on applications and read on reports; viewer holds read
only on applications and reports. -/
theorem default_permission_grants :
    (∀ a ∈ ["create", "read", "update", "delete", "approve"],
      hasPermission ⟨"admin", getDefaultPermissions "admin"⟩ "applications" a = true)
    ∧ (∀ a ∈ ["create", "read", "update", "delete"],
      hasPermission ⟨"admin", getDefaultPermissions "admin"⟩ "users" a = true
      ∧ hasPermission ⟨"admin", getDefaultPermissions "admin"⟩ "reports" a = true)
    ∧ hasPermission ⟨"admin", getDefaultPermissions "admin"⟩ "users" "approve" = false
    ∧ hasPermission ⟨"admin", getDefaultPermissions "admin"⟩ "reports" "approve" = false
    ∧ (∀ a ∈ ["read", "update"],
      hasPermission ⟨"admin", getDefaultPermissions "admin"⟩ "settings" a = true)
    ∧ (∀ a ∈ ["create", "delete", "approve"],
      hasPermission ⟨"admin", getDefaultPermissions "admin"⟩ "settings" a = false)
    ∧ (∀ a ∈ ["read", "update", "approve"],
      hasPermission ⟨"underwriter", getDefaultPermissions "underwriter"⟩ "applications" a = true)
    ∧ (∀ a ∈ ["create", "delete"],
      hasPermission ⟨"underwriter", getDefaultPermissions "underwriter"⟩ "applications" a = false)
    ∧ hasPermission ⟨"underwriter", getDefaultPermissions "underwriter"⟩ "reports" "read" = true
    ∧ hasPermission ⟨"underwriter", getDefaultPermissions "underwriter"⟩ "reports" "update" = false
    ∧ (∀ a ∈ ["create", "read", "update"],
      hasPermission ⟨"analyst", getDefaultPermissions "analyst"⟩ "applications" a = true)
    ∧ (∀ a ∈ ["delete", "approve"],
      hasPermission ⟨"analyst", getDefaultPermissions "analyst"⟩ "applications" a = false)
    ∧ hasPermission ⟨"analyst", getDefaultPermissions "analyst"⟩ "reports" "read" = true
    ∧ hasPermission ⟨"viewer", getDefaultPermissions "viewer"⟩ "applications" "read" = true
    ∧ hasPermission ⟨"viewer", getDefaultPermissions "viewer"⟩ "reports" "read" = true
    ∧ (∀ a ∈ ["create", "update", "delete", "approve"],
      hasPermission ⟨"viewer", getDefaultPermissions "viewer"⟩ "applications" a = false
      ∧ hasPermission ⟨"viewer", getDefaultPermissions "viewer"⟩ "reports" a = false) := by
  decide

/-- C10: a registration without a role stores role `analyst` with the analyst
grant set, and the grant-set lookup sends every role string outside the four
known roles to the viewer grant set. -/
theorem register_role_defaulting (r : String)
    (hadm : r ≠ "admin") (huw : r ≠ "underwriter") (han : r ≠ "analyst")
    (hv : r ≠ "viewer") :
    registeredRole none = "analyst"
    ∧ registeredPermissions none = getDefaultPermissions "analyst"
    ∧ getDefaultPermissions r = getDefaultPermissions "viewer" := by
  refine ⟨rfl, rfl, ?_⟩
  simp [getDefaultPermissions, hadm, huw, han, hv]

/-- Witness for C10 at the concrete unknown role `"superuser"`. -/
theorem register_role_defaulting_witness :
    getDefaultPermissions "superuser" = getDefaultPermissions "viewer" :=
  (register_role_defaulting "superuser" (by decide) (by decide) (by decide)
    (by decide)).2.2

/-- C4 counterexample: the claim says every extracted feature lies in `[0,1]`;
the extractor divides without clamping, so the perfectly legal credit score
850 yields feature `850 / 800 = 17/16 > 1`. -/
theorem feature_exceeds_unit_at_creditScore_850 :
    (preprocessFeatures { creditScore := some 850 }).getD 0 0 = 850 / 800
    ∧ ¬ (preprocessFeatures { creditScore := some 850 }).getD 0 0 ≤ 1 := by
  norm_num [preprocessFeatures, jsOrQ]

/-- C4 amended: the extractor always returns exactly 12 ordered scalars,
computed by the stated divisors with the stated defaults, and never errors
(it is total); every scalar lies in `[0,1]` provided each supplied numeric
input lies within its normalizing range (the code does not clamp). The
loan-purpose feature needs no hypothesis: the table values and the
unknown-category fallback 5 all lie in `[0,10]`. -/
theorem preprocess_features_bounded (d : ApplicantData)
    (h1 : optInRange d.creditScore 800)
    (h2 : optInRange d.annualIncome 200000)
    (h3 : optInRange d.debtToIncomeRatio 1)
    (h4 : optInRange d.employmentLength 20)
    (h5 : optInRange d.loanAmount 500000)
    (h6 : optInRange d.loanTerm 30)
    (h7 : optInRange d.paymentHistoryScore 100)
    (h8 : optInRange d.creditUtilization 1)
    (h9 : optInRange d.numberOfAccounts 20)
    (h10 : optInRange d.recentInquiries 10)
    (h11 : optInRange d.collateralValue 1000000) :
    (preprocessFeatures d).length = 12
    ∧ ∀ x ∈ preprocessFeatures d, 0 ≤ x ∧ x ≤ 1 := by
  refine ⟨rfl, ?_⟩
  intro x hx
  simp only [preprocessFeatures, List.mem_cons, List.not_mem_nil, or_false] at hx
  rcases hx with rfl | rfl | rfl | rfl | rfl | rfl | rfl | rfl | rfl | rfl | rfl | rfl
  · obtain ⟨a, b⟩ := jsOrQ_mem_range d.creditScore 800 600 h1 (by norm_num) (by norm_num)
    exact div_mem_unit a b (by norm_num)
  · obtain ⟨a, b⟩ := jsOrQ_mem_range d.annualIncome 200000 50000 h2 (by norm_num) (by norm_num)
    exact div_mem_unit a b (by norm_num)
  · exact jsOrQ_mem_range d.debtToIncomeRatio 1 (3 / 10) h3 (by norm_num) (by norm_num)
  · obtain ⟨a, b⟩ := jsOrQ_mem_range d.employmentLength 20 2 h4 (by norm_num) (by norm_num)
    exact div_mem_unit a b (by norm_num)
  · obtain ⟨a, b⟩ := jsOrQ_mem_range d.loanAmount 500000 50000 h5 (by norm_num) (by norm_num)
    exact div_mem_unit a b (by norm_num)
  · obtain ⟨a, b⟩ := jsOrQ_mem_range d.loanTerm 30 15 h6 (by norm_num) (by norm_num)
    exact div_mem_unit a b (by norm_num)
  · obtain ⟨a, b⟩ := jsOrQ_mem_range d.paymentHistoryScore 100 80 h7 (by norm_num) (by norm_num)
    exact div_mem_unit a b (by norm_num)
  · exact jsOrQ_mem_range d.creditUtilization 1 (3 / 10) h8 (by norm_num) (by norm_num)
  · obtain ⟨a, b⟩ := jsOrQ_mem_range d.numberOfAccounts 20 5 h9 (by norm_num) (by norm_num)
    exact div_mem_unit a b (by norm_num)
  · obtain ⟨a, b⟩ := jsOrQ_mem_range d.recentInquiries 10 2 h10 (by norm_num) (by norm_num)
    exact div_mem_unit a b (by norm_num)
  · obtain ⟨a, b⟩ := jsOrQ_mem_range d.collateralValue 1000000 0 h11 (by norm_num) (by norm_num)
    exact div_mem_unit a b (by norm_num)
  · obtain ⟨a, b⟩ := getLoanPurposeScore_mem_range d.loanPurpose
    exact div_mem_unit a b (by norm_num)

/-- Witness for C4 at the fully-absent input (every default is in range). -/
theorem preprocess_features_bounded_witness :
    (preprocessFeatures {}).length = 12
    ∧ ∀ x ∈ preprocessFeatures {}, 0 ≤ x ∧ x ≤ 1 :=
  preprocess_features_bounded {}
    (fun _ h => nomatch h) (fun _ h => nomatch h) (fun _ h => nomatch h)
    (fun _ h => nomatch h) (fun _ h => nomatch h) (fun _ h => nomatch h)
    (fun _ h => nomatch h) (fun _ h => nomatch h) (fun _ h => nomatch h)
    (fun _ h => nomatch h) (fun _ h => nomatch h)

/-- C9: a present numeric field equal to `0` is falsy under `||`, so the
extractor substitutes the default exactly as if the field were absent — shown
for every numeric field with a nonzero default, and evaluated concretely:
with `creditScore = 0`, `annualIncome = 0` and `debtToIncomeRatio = 0` the
first three features are `600/800 = 3/4`, `50000/200000 = 1/4` and `0.3`. -/
theorem zero_field_equals_missing_field (d : ApplicantData) :
    preprocessFeatures { d with creditScore := some 0 } =
      preprocessFeatures { d with creditScore := none }
    ∧ preprocessFeatures { d with annualIncome := some 0 } =
      preprocessFeatures { d with annualIncome := none }
    ∧ preprocessFeatures { d with debtToIncomeRatio := some 0 } =
      preprocessFeatures { d with debtToIncomeRatio := none }
    ∧ preprocessFeatures { d with employmentLength := some 0 } =
      preprocessFeatures { d with employmentLength := none }
    ∧ preprocessFeatures { d with loanAmount := some 0 } =
      preprocessFeatures { d with loanAmount := none }
    ∧ preprocessFeatures { d with loanTerm := some 0 } =
      preprocessFeatures { d with loanTerm := none }
    ∧ preprocessFeatures { d with paymentHistoryScore := some 0 } =
      preprocessFeatures { d with paymentHistoryScore := none }
    ∧ preprocessFeatures { d with creditUtilization := some 0 } =
      preprocessFeatures { d with creditUtilization := none }
    ∧ preprocessFeatures { d with numberOfAccounts := some 0 } =
      preprocessFeatures { d with numberOfAccounts := none }
    ∧ preprocessFeatures { d with recentInquiries := some 0 } =
      preprocessFeatures { d with recentInquiries := none }
    ∧ preprocessFeatures { d with collateralValue := some 0 } =
      preprocessFeatures { d with collateralValue := none }
    ∧ (preprocessFeatures
        { creditScore := some 0, annualIncome := some 0,
          debtToIncomeRatio := some 0 }).take 3 = [3 / 4, 1 / 4, 3 / 10] := by
  refine ⟨?_, ?_, ?_, ?_, ?_, ?_, ?_, ?_, ?_, ?_, ?_, ?_⟩ <;>
    norm_num [preprocessFeatures, jsOrQ]

/-- C5: `fraudScore` is exactly the sum of the rule contributions whose
conditions hold — independent of rule order and with no double counting —
and the banding and recommendation are the stated functions of the score:
HIGH iff `> 50`, MEDIUM iff `25 < score ≤ 50`, LOW otherwise;
MANUAL_REVIEW iff `> 50`, else AUTOMATED_PROCESSING. -/
theorem fraud_score_is_rule_sum (d : ApplicantData) :
    (evaluateFraudRisk d).fraudScore =
        (if jsGtQ d.annualIncome 200000 && jsLtQ d.employmentLength 1 then 30 else 0)
      + (if jsLtQ d.timeAtAddress 6 then 10 else 0)
      + (if jsLtQ d.age 21 && jsGtQ d.creditScore 750 then 20 else 0)
      + (if jsGtQ d.recentInquiries 5 then 15 else 0)
    ∧ ((evaluateFraudRisk d).riskLevel = "HIGH" ↔
        50 < (evaluateFraudRisk d).fraudScore)
    ∧ ((evaluateFraudRisk d).riskLevel = "MEDIUM" ↔
        (25 < (evaluateFraudRisk d).fraudScore
          ∧ (evaluateFraudRisk d).fraudScore ≤ 50))
    ∧ ((evaluateFraudRisk d).riskLevel = "LOW" ↔
        (evaluateFraudRisk d).fraudScore ≤ 25)
    ∧ ((evaluateFraudRisk d).recommendation = "MANUAL_REVIEW" ↔
        50 < (evaluateFraudRisk d).fraudScore)
    ∧ ((evaluateFraudRisk d).recommendation = "AUTOMATED_PROCESSING" ↔
        (evaluateFraudRisk d).fraudScore ≤ 50) := by
  cases h1 : (jsGtQ d.annualIncome 200000 && jsLtQ d.employmentLength 1) <;>
  cases h2 : jsLtQ d.timeAtAddress 6 <;>
  cases h3 : (jsLtQ d.age 21 && jsGtQ d.creditScore 750) <;>
  cases h4 : jsGtQ d.recentInquiries 5 <;>
    simp [evaluateFraudRisk, Id.run, h1, h2, h3, h4]

/-- C8: the demo `predictCreditScore` errors exactly when the engine is not
initialized: on every input, with every squash strategy and noise draw, the
result is an error iff `isModelLoaded` is false, and once the engine is
loaded the computation returns a result without raising. -/
theorem predict_errors_iff_unloaded (loaded : Bool) (squash : ℚ → ℚ)
    (rand : ℚ) (d : ApplicantData) :
    (predictCreditScoreDemo loaded squash rand d).isOk = loaded := by
  cases loaded <;> simp [predictCreditScoreDemo, Except.isOk, Except.toBool]

/-- C2: every rejected attempt — the actor lacks the required permission or
role, or the action is illegal from the current status (update on a finalized
application, submit on a non-draft application) — returns a typed error, and
the error is produced before any mutation: the stored entity after an error
response is the original application, with its status, fields, and
audit trail intact. -/
theorem rejected_attempt_is_atomic_noop (actor : Actor) (actorId : String)
    (app : Application) (body : UpdateBody) (assigneeId note : String)
    (loaded : Bool) (assessment : ℤ) (now : Nat) :
    (hasPermission actor "applications" "update" = false →
        updateApplication actor actorId app body now = .error .authorization
      ∧ submitApplication actor actorId app now = .error .authorization
      ∧ addReviewNote actor actorId app note now = .error .authorization)
    ∧ (hasPermission actor "applications" "update" = true →
        (app.status = .approved ∨ app.status = .denied) →
        updateApplication actor actorId app body now = .error .illegalTransition)
    ∧ (hasPermission actor "applications" "update" = true → app.status ≠ .draft →
        submitApplication actor actorId app now = .error .illegalTransition)
    ∧ (actor.role ≠ "admin" → actor.role ≠ "underwriter" →
        assignApplication actor actorId app assigneeId now = .error .authorization)
    ∧ (hasPermission actor "applications" "read" = false →
        analyzeApplication actor actorId app loaded assessment now = .error .authorization)
    ∧ (∀ e : RouteError, persistedAfter app (.error e) = app
        ∧ (persistedAfter app (.error e)).auditTrail = app.auditTrail) := by
  refine ⟨?_, ?_, ?_, ?_, ?_, ?_⟩
  · intro h
    exact ⟨by simp [updateApplication, h], by simp [submitApplication, h],
      by simp [addReviewNote, h]⟩
  · intro h hst
    rcases hst with hst | hst <;> simp [updateApplication, h, hst]
  · intro h hst
    simp [submitApplication, h, hst]
  · intro h1 h2
    simp [assignApplication, h1, h2]
  · intro h
    simp [analyzeApplication, h]
  · intro e
    exact ⟨rfl, rfl⟩

/-- Witness for C2: a viewer (no `applications:update` grant) attempting an
update on a fresh application is rejected with the authorization error. -/
theorem rejected_attempt_is_atomic_noop_witness :
    hasPermission ⟨"viewer", getDefaultPermissions "viewer"⟩ "applications" "update" = false
    ∧ updateApplication ⟨"viewer", getDefaultPermissions "viewer"⟩ "v1" {} {} 0 =
        .error .authorization :=
  ⟨by rfl,
    ((rejected_attempt_is_atomic_noop ⟨"viewer", getDefaultPermissions "viewer"⟩
      "v1" {} {} "uw1" "note" true 0 0).1 (by rfl)).1⟩

/-- C6 counterexample: the claim says submit is the only action performing the
`draft → submitted` transition; but the generic update route merges its
payload with `Object.assign`, so an update whose body carries
`status: 'submitted'` also moves a draft application to `submitted`, recorded
with an `application_updated` (not `application_submitted`) audit entry and
with `submittedAt` left unset. -/
theorem update_route_performs_draft_to_submitted :
    updateApplication ⟨"analyst", getDefaultPermissions "analyst"⟩ "an1"
        {} { status := some .submitted } 3 =
      .ok { status := .submitted,
            auditTrail := [⟨"application_updated", "an1", 3⟩] } := by
  rfl

/-- C6 amended: for every draft application and every actor holding
`applications:update`, submit succeeds — status `submitted`, `submittedAt`
set, exactly one `application_submitted` audit entry appended — and among the
core operations only submit and a generic update whose payload carries a
status field can move a draft application to `submitted`: an update whose
payload has no status field leaves the status `draft`, assign sets
`under_review`, and note addition and AI analysis leave the status
untouched. -/
theorem submit_succeeds_from_draft (actor : Actor) (actorId : String)
    (app : Application) (body : UpdateBody) (assigneeId note : String)
    (assessment : ℤ) (now : Nat)
    (hdraft : app.status = .draft)
    (hperm : hasPermission actor "applications" "update" = true) :
    submitApplication actor actorId app now =
      .ok { app with
            status := .submitted
            submittedAt := some now
            auditTrail := app.auditTrail
              ++ [⟨"application_submitted", actorId, now⟩] }
    ∧ (body.status = none →
        ∀ r, updateApplication actor actorId app body now = .ok r →
          r.status = .draft)
    ∧ (∀ r, assignApplication actor actorId app assigneeId now = .ok r →
        r.status = .under_review)
    ∧ (∀ r, addReviewNote actor actorId app note now = .ok r →
        r.status = .draft)
    ∧ (∀ loaded r,
        analyzeApplication actor actorId app loaded assessment now = .ok r →
        r.status = .draft) := by
  refine ⟨?_, ?_, ?_, ?_, ?_⟩
  · simp [submitApplication, hperm, hdraft, addAuditEntry]
  · intro hb r hr
    unfold updateApplication at hr
    split at hr
    · exact absurd hr (by simp)
    · split at hr
      · exact absurd hr (by simp)
      · simp only [Except.ok.injEq] at hr
        simp [← hr, addAuditEntry, hb, hdraft]
  · intro r hr
    unfold assignApplication at hr
    split at hr
    · exact absurd hr (by simp)
    · simp only [Except.ok.injEq] at hr
      simp [← hr, addAuditEntry]
  · intro r hr
    unfold addReviewNote at hr
    split at hr
    · exact absurd hr (by simp)
    · split at hr
      · exact absurd hr (by simp)
      · simp only [Except.ok.injEq] at hr
        simp [← hr, addAuditEntry, hdraft]
  · intro loaded r hr
    unfold analyzeApplication at hr
    split at hr
    · exact absurd hr (by simp)
    · split at hr
      · exact absurd hr (by simp)
      · simp only [Except.ok.injEq] at hr
        simp [← hr, addAuditEntry, hdraft]

/-- Witness for C6: an analyst submitting a fresh draft application. -/
theorem submit_succeeds_from_draft_witness :
    submitApplication ⟨"analyst", getDefaultPermissions "analyst"⟩ "a1" {} 7 =
      .ok { status := .submitted, submittedAt := some 7,
            auditTrail := [⟨"application_submitted", "a1", 7⟩] } :=
  (submit_succeeds_from_draft ⟨"analyst", getDefaultPermissions "analyst"⟩
    "a1" {} {} "uw1" "note" 0 7 rfl (by rfl)).1

end CreditWorkspace
